import Mathlib

/-!
Verification of the Cognitive Interaction Pipeline of the activia1 repository.

The repository ships the frontend (React pages, services and the TypeScript
type layer in frontEnd/src/types/api.types.ts); the backend pipeline itself
(governance gate, cognitive state classifier, agent dispatcher, response
synthesizer, traceability recorder, risk analyzer, path aggregator) is not
part of the source tree, so those operations are modelled from the
specification, as marked on each definition.  Enumerations and record shapes
are transcribed from api.types.ts; the session-creation form handler is
transcribed from the CreateSessionModal component.
-/

namespace Activia

/-- SessionMode enum, transcribed from frontEnd/src/types/api.types.ts
(lines 13-20): the six operating modes of the cognitive engine. -/
inductive SessionMode
  | TUTOR
  | EVALUATOR
  | SIMULATOR
  | RISK_ANALYST
  | GOVERNANCE
  | PRACTICE
deriving DecidableEq, Repr, Fintype

/-- CognitiveState enum, transcribed from api.types.ts (lines 44-51):
the six cognitive phases, with the backend Spanish value names. -/
inductive CognitiveState
  | exploracion
  | planificacion
  | implementacion
  | depuracion
  | validacion
  | reflexion
deriving DecidableEq, Repr, Fintype

/-- RiskLevel enum, transcribed from api.types.ts (lines 70-76):
severity levels low / medium / high / critical / info. -/
inductive RiskLevel
  | LOW
  | MEDIUM
  | HIGH
  | CRITICAL
  | INFO
deriving DecidableEq, Repr, Fintype

/-- RiskType enum, transcribed from api.types.ts (lines 83-107):
the 17 enumerated risk kinds, grouped there by comment into the
cognitive (RC), ethical (RE), epistemic (REp), technical (RT) and
governance (RG) sections. -/
inductive RiskType
  | COGNITIVE_DELEGATION
  | SUPERFICIAL_REASONING
  | AI_DEPENDENCY
  | LACK_JUSTIFICATION
  | NO_SELF_REGULATION
  | ACADEMIC_INTEGRITY
  | UNDISCLOSED_AI_USE
  | PLAGIARISM
  | CONCEPTUAL_ERROR
  | LOGICAL_FALLACY
  | UNCRITICAL_ACCEPTANCE
  | SECURITY_VULNERABILITY
  | POOR_CODE_QUALITY
  | ARCHITECTURAL_FLAW
  | POLICY_VIOLATION
  | UNAUTHORIZED_USE
  | AUTOMATION_SUSPECTED
deriving DecidableEq, Repr, Fintype

/-- RiskDimension enum, transcribed from api.types.ts (lines 114-120):
the five risk dimensions. -/
inductive RiskDimension
  | COGNITIVE
  | ETHICAL
  | EPISTEMIC
  | TECHNICAL
  | GOVERNANCE
deriving DecidableEq, Repr, Fintype

/-- The dimension of each risk kind, following the section grouping of the
RiskType enum in api.types.ts (RC / RE / REp / RT / RG comments): five
cognitive kinds, three ethical, three epistemic, three technical and three
governance kinds (AUTOMATION_SUSPECTED sits in the governance section). -/
def RiskType.dimension : RiskType → RiskDimension
  | .COGNITIVE_DELEGATION => .COGNITIVE
  | .SUPERFICIAL_REASONING => .COGNITIVE
  | .AI_DEPENDENCY => .COGNITIVE
  | .LACK_JUSTIFICATION => .COGNITIVE
  | .NO_SELF_REGULATION => .COGNITIVE
  | .ACADEMIC_INTEGRITY => .ETHICAL
  | .UNDISCLOSED_AI_USE => .ETHICAL
  | .PLAGIARISM => .ETHICAL
  | .CONCEPTUAL_ERROR => .EPISTEMIC
  | .LOGICAL_FALLACY => .EPISTEMIC
  | .UNCRITICAL_ACCEPTANCE => .EPISTEMIC
  | .SECURITY_VULNERABILITY => .TECHNICAL
  | .POOR_CODE_QUALITY => .TECHNICAL
  | .ARCHITECTURAL_FLAW => .TECHNICAL
  | .POLICY_VIOLATION => .GOVERNANCE
  | .UNAUTHORIZED_USE => .GOVERNANCE
  | .AUTOMATION_SUSPECTED => .GOVERNANCE

/-- The enumeration order of RiskType, as listed in api.types.ts. -/
def RiskType.all : List RiskType :=
  [.COGNITIVE_DELEGATION, .SUPERFICIAL_REASONING, .AI_DEPENDENCY,
   .LACK_JUSTIFICATION, .NO_SELF_REGULATION,
   .ACADEMIC_INTEGRITY, .UNDISCLOSED_AI_USE, .PLAGIARISM,
   .CONCEPTUAL_ERROR, .LOGICAL_FALLACY, .UNCRITICAL_ACCEPTANCE,
   .SECURITY_VULNERABILITY, .POOR_CODE_QUALITY, .ARCHITECTURAL_FLAW,
   .POLICY_VIOLATION, .UNAUTHORIZED_USE, .AUTOMATION_SUSPECTED]

/-- The enumeration order of RiskLevel, as listed in api.types.ts. -/
def RiskLevel.all : List RiskLevel :=
  [.LOW, .MEDIUM, .HIGH, .CRITICAL, .INFO]

/-- The enumeration order of RiskDimension, as listed in api.types.ts. -/
def RiskDimension.all : List RiskDimension :=
  [.COGNITIVE, .ETHICAL, .EPISTEMIC, .TECHNICAL, .GOVERNANCE]

/-- HelpLevel enum, transcribed from api.types.ts (lines 634-639). -/
inductive HelpLevel
  | minimo
  | bajo
  | medio
  | alto
deriving DecidableEq, Repr, Fintype

/-- PolicyConfig, transcribed from api.types.ts (lines 641-647); the
risk_thresholds record of named numeric thresholds is kept as an
association list. -/
structure PolicyConfig where
  max_help_level : HelpLevel
  block_complete_solutions : Bool
  require_justification : Bool
  allow_code_snippets : Bool
  risk_thresholds : List (String × ℚ)
deriving DecidableEq, Repr

/-! ## Session-creation form handler (CreateSessionModal) -/

/-- SessionCreate payload, transcribed from api.types.ts (lines 159-164);
simulator_type is optional there, and the form select can also leave it as
the empty string, so it is an `Option String` here. -/
structure SessionCreate where
  student_id : String
  activity_id : String
  mode : SessionMode
  simulator_type : Option String
deriving DecidableEq, Repr

/-- JavaScript truthiness of the optional simulator_type field:
`undefined` and the empty string are falsy, any other string is truthy.
This is the meaning of the `!formData.simulator_type` guard in
CreateSessionModal.handleSubmit. -/
def jsTruthyStr : Option String → Bool
  | none => false
  | some s => !s.isEmpty

/-- Observable outcome of one CreateSessionModal.handleSubmit run: the error
message finally held in the error state (none for the cleared empty string),
and the list of payloads passed to sessionsService.create during the run. -/
structure SubmitResult where
  error : Option String
  createCalls : List SessionCreate
deriving DecidableEq, Repr

/-- The validation message set by handleSubmit when mode is SIMULATOR and no
simulator type was chosen (CreateSessionModal, line 30). -/
def simulatorTypeError : String :=
  "Debe seleccionar un tipo de simulador para el modo Simulador Profesional"

/-- CreateSessionModal.handleSubmit (src/unnamed/part_005, lines 24-59):
clears the error, validates that a SIMULATOR session names a simulator type
and returns before calling sessionsService.create when it does not;
otherwise issues exactly one create call, whose failure message (the thrown
error) otherwise lands in the error state.  The create outcome is passed in
as `createOutcome` since the service is an external collaborator. -/
def handleSubmit (form : SessionCreate) (createOutcome : Except String String) :
    SubmitResult :=
  if form.mode = SessionMode.SIMULATOR ∧ jsTruthyStr form.simulator_type = false then
    { error := some simulatorTypeError, createCalls := [] }
  else
    match createOutcome with
    | .ok _sessionId => { error := none, createCalls := [form] }
    | .error msg => { error := some msg, createCalls := [form] }

/-! ## Cognitive Interaction Pipeline (spec-modelled)

The backend implementing the pipeline is not part of the repository source
tree; the definitions below are modelled from the specification (sections
2, 4, 6 and 7), against the record shapes declared in api.types.ts. -/

/-- Case-folded character list of a string, for substring matching. -/
def lowerChars (s : String) : List Char :=
  s.data.map Char.toLower

/-- Whether `pat` occurs as a contiguous run inside `s`. -/
def isSubchain : List Char → List Char → Bool
  | _, [] => true
  | [], _ :: _ => false
  | c :: rest, p :: ps =>
      List.isPrefixOf (p :: ps) (c :: rest) || isSubchain rest (p :: ps)

/-- Case-insensitive substring test used by the prompt heuristics. -/
def containsPat (s pat : String) : Bool :=
  isSubchain (lowerChars s) (lowerChars pat)

/-- Modelled from the spec: prompt patterns that the Governance Gate treats
as a complete-solution ("give me the answer") request (section 4.1 and the
section 8 scenario). -/
def completeSolutionPatterns : List String :=
  ["complete solution", "give me the answer", "give me the solution",
   "solucion completa", "dame la solucion"]

/-- Modelled from the spec: whether a prompt pattern-matches a
complete-solution request. -/
def isCompleteSolutionRequest (prompt : String) : Bool :=
  completeSolutionPatterns.any (fun pat => containsPat prompt pat)

/-- Governance verdict: allow / allow-with-constraint / block with a reason
(spec section 4.1). -/
inductive Verdict
  | allow
  | allowWithConstraint (constraint : String)
  | block (reason : String)
deriving DecidableEq, Repr

/-- Whether a verdict is a block. -/
def Verdict.isBlock : Verdict → Bool
  | .block _ => true
  | _ => false

/-- The configured ceiling for the cumulative AI-dependency risk, read from
the policy's risk_thresholds record; absent an entry the ceiling defaults
high enough that the rule does not fire on fresh sessions. -/
def riskCeiling (policy : PolicyConfig) : ℚ :=
  match policy.risk_thresholds.lookup "ai_dependency" with
  | some c => c
  | none => 10

/-- Modelled from the spec: the Governance Gate (section 4.1).  A rule
evaluation over thresholds: if the cumulative AI-dependency risk reached the
configured ceiling, force block; if the policy forbids complete solutions and
the prompt pattern-matches such a request, force block; a justification
requirement downgrades to allow-with-constraint; otherwise allow.
Deterministic given identical inputs, no hidden state. -/
def governanceGate (policy : PolicyConfig) (aiDependencyRisk : ℚ)
    (prompt : String) : Verdict :=
  if riskCeiling policy ≤ aiDependencyRisk then
    .block "Cumulative AI-dependency risk reached the configured ceiling"
  else if policy.block_complete_solutions && isCompleteSolutionRequest prompt then
    .block "Policy forbids complete-solution requests"
  else if policy.require_justification && !containsPat prompt "porque" then
    .allowWithConstraint "Ask the student to justify the request"
  else
    .allow

/-- Result of the single external generation call wrapped by the Response
Synthesizer: generated text plus an AI-involvement estimate, or a provider
failure (error or timeout) message (spec sections 4.4 and 7). -/
inductive ProviderResult
  | ok (text : String) (aiInvolvement : ℚ)
  | failure (message : String)
deriving DecidableEq, Repr

/-- A behavior module's pedagogical constraint configuration
(spec section 4.3). -/
structure BehaviorModule where
  name : String
  allowsCompleteSolutions : Bool
  helpLevel : HelpLevel
deriving DecidableEq, Repr

/-- The most conservative module: Socratic tutoring with minimal help. -/
def socraticModule : BehaviorModule :=
  { name := "socratic_tutor", allowsCompleteSolutions := false,
    helpLevel := HelpLevel.minimo }

/-- The mode identifiers the dispatcher knows, as the API transports them
(SessionResponse.mode is a plain string in api.types.ts). -/
def knownModes : List String :=
  ["TUTOR", "EVALUATOR", "SIMULATOR", "RISK_ANALYST", "GOVERNANCE", "PRACTICE"]

/-- Modelled from the spec: the Agent Dispatcher (section 4.3), a pure
mapping (session mode, cognitive state, optional simulator role) to a
behavior module.  Mode and state arrive as raw strings from the API layer;
any combination outside the known modes fails closed to the Socratic
minimal-help module rather than raising. -/
def dispatchRaw (mode : String) (state : String) (simulatorRole : Option String) :
    BehaviorModule :=
  if mode = "TUTOR" then
    { name := "socratic_tutor", allowsCompleteSolutions := false,
      helpLevel := if state = "depuracion" then HelpLevel.medio else HelpLevel.minimo }
  else if mode = "EVALUATOR" then
    { name := "process_evaluator", allowsCompleteSolutions := false,
      helpLevel := HelpLevel.bajo }
  else if mode = "SIMULATOR" then
    { name := String.append "simulator_" (simulatorRole.getD "generic"),
      allowsCompleteSolutions := false, helpLevel := HelpLevel.medio }
  else if mode = "RISK_ANALYST" then
    { name := "risk_analyst", allowsCompleteSolutions := false,
      helpLevel := HelpLevel.bajo }
  else if mode = "GOVERNANCE" then
    { name := "governance_advisor", allowsCompleteSolutions := false,
      helpLevel := HelpLevel.bajo }
  else if mode = "PRACTICE" then
    { name := "free_practice", allowsCompleteSolutions := false,
      helpLevel := HelpLevel.minimo }
  else
    socraticModule

/-- Modelled from the spec: the Cognitive State Classifier (section 4.2),
lightweight keyword heuristics over the new prompt plus the recent history,
yielding one of the six cognitive phases; no hidden state. -/
def classifyCognitiveState (history : List String) (prompt : String)
    (context : List (String × String)) : CognitiveState :=
  if containsPat prompt "error" || containsPat prompt "bug" ||
      containsPat prompt "no funciona" || containsPat prompt "fix" then
    .depuracion
  else if containsPat prompt "plan" || containsPat prompt "design" ||
      containsPat prompt "how should" then
    .planificacion
  else if containsPat prompt "test" || containsPat prompt "verify" ||
      containsPat prompt "comprobar" then
    .validacion
  else if containsPat prompt "learned" || containsPat prompt "reflect" ||
      containsPat prompt "aprendi" then
    .reflexion
  else if containsPat prompt "implement" || containsPat prompt "escribir" ||
      containsPat prompt "code" then
    .implementacion
  else if 3 ≤ history.length && context.isEmpty then
    .implementacion
  else
    .exploracion

/-- Modelled from the spec: an invocation of the classifier at wall-clock
tick `t`; the classifier holds no hidden state, so the tick is ignored. -/
def classifyAt (_t : ℕ) (history : List String) (prompt : String)
    (context : List (String × String)) : CognitiveState :=
  classifyCognitiveState history prompt context

/-- Modelled from the spec: an invocation of the dispatcher at wall-clock
tick `t`; the dispatcher is a pure mapping, so the tick is ignored. -/
def dispatchAt (_t : ℕ) (mode : String) (state : String)
    (simulatorRole : Option String) : BehaviorModule :=
  dispatchRaw mode state simulatorRole

/-- The raw API name of a session mode. -/
def sessionModeName : SessionMode → String
  | .TUTOR => "TUTOR"
  | .EVALUATOR => "EVALUATOR"
  | .SIMULATOR => "SIMULATOR"
  | .RISK_ANALYST => "RISK_ANALYST"
  | .GOVERNANCE => "GOVERNANCE"
  | .PRACTICE => "PRACTICE"

/-- The raw API name of a cognitive state. -/
def cognitiveStateName : CognitiveState → String
  | .exploracion => "exploracion"
  | .planificacion => "planificacion"
  | .implementacion => "implementacion"
  | .depuracion => "depuracion"
  | .validacion => "validacion"
  | .reflexion => "reflexion"

/-- Interaction record as returned by the process-interaction operation,
shaped after InteractionResponse in api.types.ts (lines 225-244). -/
structure Interaction where
  prompt : String
  response : String
  agent_used : String
  cognitive_state_detected : CognitiveState
  ai_involvement : ℚ
  blocked : Bool
  block_reason : Option String
  risks_detected : List RiskType
deriving DecidableEq, Repr

/-- N1 (surface) metadata of a trace node, shaped after TraceNode.metadata
in api.types.ts (lines 733-744): model name, processing time, and a record
of a provider failure when one occurred. -/
structure N1Meta where
  model : String
  processing_time_ms : ℕ
  provider_failure : Option String
deriving DecidableEq, Repr

/-- A stored trace node: identifier, parent-trace reference, timestamp,
blocked flag and N1 metadata, after CognitiveTrace / TraceNode in
api.types.ts. -/
structure TraceRec where
  id : ℕ
  parent_trace_id : Option ℕ
  timestamp : ℕ
  blocked : Bool
  n1 : N1Meta
deriving DecidableEq, Repr

/-- The per-interaction outcome of the pipeline, before the trace node is
keyed into the session chain: response content, blocking decision, N1
metadata and the number of provider calls made. -/
structure StepOutcome where
  response : String
  agent_used : String
  ai_involvement : ℚ
  blocked : Bool
  block_reason : Option String
  risks_detected : List RiskType
  n1 : N1Meta
  providerCalls : ℕ
deriving DecidableEq, Repr

/-- The fixed safe response content of a blocked interaction: no generated
text is returned. -/
def safeBlockedResponse : String := ""

/-- Clamp the provider's AI-involvement estimate into [0,1]
(spec section 3 invariant set). -/
def clampUnit (q : ℚ) : ℚ := min 1 (max 0 q)

/-- Modelled from the spec: the decision core of the process-interaction
operation (sections 2, 4.1, 4.4 and 7).  The Governance Gate runs first; on
block the pipeline short-circuits with no provider call and a block record.
Otherwise the selected behavior module's single provider call either yields
the response text, or — on provider error or timeout — resolves to the safe
default: a blocked interaction with a descriptive reason, never an
unconstrained fallback, and never a retry with relaxed constraints. -/
def stepOutcome (policy : PolicyConfig) (mode : SessionMode)
    (simulatorRole : Option String) (history : List String)
    (context : List (String × String)) (aiDependencyRisk : ℚ)
    (provider : String → ProviderResult) (prompt : String) : StepOutcome :=
  let state := classifyCognitiveState history prompt context
  let module := dispatchRaw (sessionModeName mode) (cognitiveStateName state) simulatorRole
  match governanceGate policy aiDependencyRisk prompt with
  | Verdict.block reason =>
      { response := safeBlockedResponse, agent_used := "governance_gate",
        ai_involvement := 0, blocked := true, block_reason := some reason,
        risks_detected := [RiskType.POLICY_VIOLATION],
        n1 := { model := "none", processing_time_ms := 0, provider_failure := none },
        providerCalls := 0 }
  | _ =>
      match provider prompt with
      | ProviderResult.ok text involvement =>
          { response := text, agent_used := module.name,
            ai_involvement := clampUnit involvement, blocked := false,
            block_reason := none, risks_detected := [],
            n1 := { model := "external_llm", processing_time_ms := 0,
                    provider_failure := none },
            providerCalls := 1 }
      | ProviderResult.failure msg =>
          { response := safeBlockedResponse, agent_used := module.name,
            ai_involvement := 0, blocked := true,
            block_reason := some (String.append "Provider failure: " msg),
            risks_detected := [],
            n1 := { model := "external_llm", processing_time_ms := 0,
                    provider_failure := some msg },
            providerCalls := 1 }

/-- What one process-interaction call returns and persists: the Interaction,
the trace node appended to the session chain, and how many provider calls
were made. -/
structure PipelineOutput where
  interaction : Interaction
  trace : TraceRec
  providerCalls : ℕ
deriving DecidableEq, Repr

/-- Modelled from the spec: the process-interaction operation (section 6).
An Interaction record is produced on every outcome — including blocks, for
audit completeness — and a trace node is always persisted, chained to the
session's previous node through `parent` and stamped `now`. -/
def processInteraction (policy : PolicyConfig) (mode : SessionMode)
    (simulatorRole : Option String) (history : List String)
    (context : List (String × String)) (aiDependencyRisk : ℚ)
    (provider : String → ProviderResult) (prompt : String)
    (traceId : ℕ) (parent : Option ℕ) (now : ℕ) : PipelineOutput :=
  let o := stepOutcome policy mode simulatorRole history context aiDependencyRisk
    provider prompt
  { interaction :=
      { prompt := prompt, response := o.response, agent_used := o.agent_used,
        cognitive_state_detected := classifyCognitiveState history prompt context,
        ai_involvement := o.ai_involvement, blocked := o.blocked,
        block_reason := o.block_reason, risks_detected := o.risks_detected },
    trace :=
      { id := traceId, parent_trace_id := parent, timestamp := now,
        blocked := o.blocked, n1 := o.n1 },
    providerCalls := o.providerCalls }

/-- Modelled from the spec: the Traceability Recorder's append-only chain
over a session (sections 4.5 and 5).  Interactions are processed in
submission order; each trace node takes the next identifier, points to the
previously recorded node, and is stamped with the interaction's clock time.
The chain accumulator is kept newest-first. -/
def runSession (policy : PolicyConfig) (mode : SessionMode)
    (simulatorRole : Option String) (aiDependencyRisk : ℚ)
    (provider : String → ProviderResult) :
    List (String × ℕ) → List TraceRec → List TraceRec
  | [], chain => chain
  | (prompt, t) :: rest, chain =>
      runSession policy mode simulatorRole aiDependencyRisk provider rest
        ((processInteraction policy mode simulatorRole [] [] aiDependencyRisk
            provider prompt chain.length ((chain.head?).map TraceRec.id) t).trace
          :: chain)

/-- Cognitive-path summary fields relevant to the round-trip, after
CognitivePathSummary in api.types.ts (lines 345-353). -/
structure PathSummary where
  total_interactions : ℕ
  total_duration : ℕ
  blocked_interactions : ℕ
deriving DecidableEq, Repr

/-- Modelled from the spec: the Session/Path Aggregator's read-only
reconstruction over a session's stored traces (sections 2 and 3): the
interaction count is the number of stored nodes and the total duration spans
from the first to the last node's timestamp.  The chain arrives
newest-first, so its head is the last trace. -/
def reconstructPathSummary (chain : List TraceRec) : PathSummary :=
  { total_interactions := chain.length,
    total_duration :=
      ((chain.head?).map TraceRec.timestamp).getD 0 -
        ((chain.getLast?).map TraceRec.timestamp).getD 0,
    blocked_interactions := (chain.filter (fun tr => tr.blocked)).length }

/-- A stored Risk finding, after the Risk record in api.types.ts
(lines 380-403), reduced to the fields the analyzer scores over. -/
structure RiskFinding where
  risk_type : RiskType
  risk_level : RiskLevel
  description : String
deriving DecidableEq, Repr

/-- Modelled from the spec: the severity weight a finding contributes to its
dimension score (section 4.6; the exact weighting is implementation-defined,
any non-negative weighting preserves the claimed bounds). -/
def severityWeight : RiskLevel → ℚ
  | .INFO => 1
  | .LOW => 2
  | .MEDIUM => 4
  | .HIGH => 6
  | .CRITICAL => 8

/-- Clamp a dimension score into [0,10] (spec section 4.6). -/
def clampScore (q : ℚ) : ℚ := min 10 (max 0 q)

/-- Modelled from the spec: one dimension's score in the full session
recompute — the weighted count of the findings of that dimension, clamped
to [0,10] (section 4.6). -/
def dimensionScore (findings : List RiskFinding) (d : RiskDimension) : ℚ :=
  clampScore
    (((findings.filter (fun f => RiskType.dimension f.risk_type = d)).map
        (fun f => severityWeight f.risk_level)).sum)

/-- The overall score bands of section 4.6, mapping the 0-50 overall score
to a risk level. -/
def overallLevel (overall : ℚ) : RiskLevel :=
  if overall ≤ 10 then .INFO
  else if overall ≤ 20 then .LOW
  else if overall ≤ 30 then .MEDIUM
  else if overall ≤ 40 then .HIGH
  else .CRITICAL

/-- The session risk aggregate, after RiskAnalysis in api.types.ts
(lines 710-728): the five dimension scores, the overall score and the
derived level. -/
structure RiskAnalysis where
  cognitive : ℚ
  ethical : ℚ
  epistemic : ℚ
  technical : ℚ
  governance : ℚ
  overall_score : ℚ
  risk_level : RiskLevel
deriving DecidableEq, Repr

/-- Modelled from the spec: the Risk Analyzer's full session recompute
(section 4.6): each dimension scored from scratch over the accumulated
findings and clamped to [0,10]; the overall score is the unweighted sum of
the five; the level is derived from the fixed bands. -/
def computeRiskAnalysis (findings : List RiskFinding) : RiskAnalysis :=
  let c := dimensionScore findings .COGNITIVE
  let e := dimensionScore findings .ETHICAL
  let ep := dimensionScore findings .EPISTEMIC
  let t := dimensionScore findings .TECHNICAL
  let g := dimensionScore findings .GOVERNANCE
  { cognitive := c, ethical := e, epistemic := ep, technical := t,
    governance := g, overall_score := c + e + ep + t + g,
    risk_level := overallLevel (c + e + ep + t + g) }

/-- Fixture: a permissive policy used by concrete witnesses. -/
def policyFree : PolicyConfig :=
  { max_help_level := .medio, block_complete_solutions := false,
    require_justification := false, allow_code_snippets := true,
    risk_thresholds := [] }

/-- Fixture: a policy that blocks complete-solution requests. -/
def policyStrict : PolicyConfig :=
  { max_help_level := .minimo, block_complete_solutions := true,
    require_justification := false, allow_code_snippets := false,
    risk_thresholds := [] }

/-- Fixture: a provider that always answers. -/
def providerOk : String → ProviderResult :=
  fun _ => ProviderResult.ok "respuesta" (1 / 2)

/-- Fixture: a provider that always times out. -/
def providerDown : String → ProviderResult :=
  fun _ => ProviderResult.failure "timeout"

/-- Claim C9: every Risk finding's type identifier ranges over exactly 17
enumerated risk kinds; the (total) dimension mapping sends each kind to one
of the five dimensions; and the severity level ranges over exactly the five
levels info/low/medium/high/critical. -/
theorem risk_taxonomy_17_kinds_5_dimensions_5_levels :
    (RiskType.all.length = 17 ∧ RiskType.all.Nodup ∧
      ∀ t : RiskType, t ∈ RiskType.all) ∧
    (∀ t : RiskType, RiskType.dimension t ∈ RiskDimension.all) ∧
    (RiskDimension.all.length = 5 ∧ RiskDimension.all.Nodup) ∧
    (RiskLevel.all.length = 5 ∧ RiskLevel.all.Nodup ∧
      ∀ l : RiskLevel, l ∈ RiskLevel.all) := by
  decide

/-- Claim C10: submitting the session-creation form in SIMULATOR mode with
no simulator type selected sets the validation message and issues no create
request; in any other mode exactly one create request is issued, with no
simulator-type requirement. -/
theorem handleSubmit_simulator_requires_type (form : SessionCreate)
    (createOutcome : Except String String) :
    (form.mode = SessionMode.SIMULATOR → jsTruthyStr form.simulator_type = false →
      handleSubmit form createOutcome =
        { error := some simulatorTypeError, createCalls := [] }) ∧
    (form.mode ≠ SessionMode.SIMULATOR →
      (handleSubmit form createOutcome).createCalls = [form]) := by
  constructor
  · intro h1 h2
    unfold handleSubmit
    rw [if_pos ⟨h1, h2⟩]
  · intro h1
    unfold handleSubmit
    rw [if_neg (fun hc => h1 hc.1)]
    cases createOutcome <;> rfl

/-- Concrete run of the submit guard: a SIMULATOR form without a simulator
type is rejected with no create call, and a TUTOR form issues its call. -/
theorem handleSubmit_simulator_requires_type_witness :
    handleSubmit ⟨"student_001", "prog2_tp1", SessionMode.SIMULATOR, none⟩
        (Except.ok "sid") =
      { error := some simulatorTypeError, createCalls := [] } ∧
    (handleSubmit ⟨"student_001", "prog2_tp1", SessionMode.TUTOR, none⟩
        (Except.ok "sid")).createCalls =
      [⟨"student_001", "prog2_tp1", SessionMode.TUTOR, none⟩] :=
  ⟨(handleSubmit_simulator_requires_type _ _).1 rfl rfl,
   (handleSubmit_simulator_requires_type _ _).2 (by decide)⟩

/-- Claim C7: on an identical (session history snapshot, new prompt,
context) tuple the Cognitive State Classifier returns the same label on any
two invocations, and the Agent Dispatcher returns the same behavior module
on any two invocations: neither reads hidden state, so the invocation tick
is irrelevant. -/
theorem classifier_and_dispatcher_deterministic (t1 t2 : ℕ)
    (history : List String) (prompt : String)
    (context : List (String × String)) (mode state : String)
    (role : Option String) :
    classifyAt t1 history prompt context = classifyAt t2 history prompt context ∧
    dispatchAt t1 mode state role = dispatchAt t2 mode state role :=
  ⟨rfl, rfl⟩

/-- Claim C8: the Agent Dispatcher is total, and any mode outside the six
known modes falls back to the most conservative Socratic minimal-help
module instead of raising. -/
theorem dispatcher_fails_closed (mode state : String) (role : Option String)
    (h : mode ∉ knownModes) :
    dispatchRaw mode state role = socraticModule := by
  simp only [knownModes, List.mem_cons, List.not_mem_nil, or_false, not_or] at h
  obtain ⟨h1, h2, h3, h4, h5, h6⟩ := h
  simp [dispatchRaw, h1, h2, h3, h4, h5, h6]

/-- Concrete run of the fail-closed dispatch: an unknown mode string maps to
the Socratic minimal-help module. -/
theorem dispatcher_fails_closed_witness :
    dispatchRaw "ORACLE" "exploracion" none = socraticModule :=
  dispatcher_fails_closed "ORACLE" "exploracion" none (by decide)

/-- Each dimension score of the recompute lies in [0,10]: the clamp bounds. -/
theorem dimensionScore_bounds (findings : List RiskFinding) (d : RiskDimension) :
    0 ≤ dimensionScore findings d ∧ dimensionScore findings d ≤ 10 := by
  unfold dimensionScore clampScore
  exact ⟨le_min (by norm_num) (le_max_left 0 _), min_le_left _ _⟩

/-- Claim C2: in every recomputed RiskAnalysis the five dimension scores lie
in [0,10], the overall score equals (exactly, over the rationals) the sum of
the five dimension scores, and hence lies in [0,50]. -/
theorem riskAnalysis_bounds_and_overall_sum (findings : List RiskFinding) :
    (0 ≤ (computeRiskAnalysis findings).cognitive ∧
      (computeRiskAnalysis findings).cognitive ≤ 10) ∧
    (0 ≤ (computeRiskAnalysis findings).ethical ∧
      (computeRiskAnalysis findings).ethical ≤ 10) ∧
    (0 ≤ (computeRiskAnalysis findings).epistemic ∧
      (computeRiskAnalysis findings).epistemic ≤ 10) ∧
    (0 ≤ (computeRiskAnalysis findings).technical ∧
      (computeRiskAnalysis findings).technical ≤ 10) ∧
    (0 ≤ (computeRiskAnalysis findings).governance ∧
      (computeRiskAnalysis findings).governance ≤ 10) ∧
    (computeRiskAnalysis findings).overall_score =
      (computeRiskAnalysis findings).cognitive +
      (computeRiskAnalysis findings).ethical +
      (computeRiskAnalysis findings).epistemic +
      (computeRiskAnalysis findings).technical +
      (computeRiskAnalysis findings).governance ∧
    0 ≤ (computeRiskAnalysis findings).overall_score ∧
    (computeRiskAnalysis findings).overall_score ≤ 50 := by
  obtain ⟨c1, c2⟩ := dimensionScore_bounds findings .COGNITIVE
  obtain ⟨e1, e2⟩ := dimensionScore_bounds findings .ETHICAL
  obtain ⟨p1, p2⟩ := dimensionScore_bounds findings .EPISTEMIC
  obtain ⟨t1, t2⟩ := dimensionScore_bounds findings .TECHNICAL
  obtain ⟨g1, g2⟩ := dimensionScore_bounds findings .GOVERNANCE
  have hov : (computeRiskAnalysis findings).overall_score =
      dimensionScore findings .COGNITIVE + dimensionScore findings .ETHICAL +
      dimensionScore findings .EPISTEMIC + dimensionScore findings .TECHNICAL +
      dimensionScore findings .GOVERNANCE := rfl
  exact ⟨⟨c1, c2⟩, ⟨e1, e2⟩, ⟨p1, p2⟩, ⟨t1, t2⟩, ⟨g1, g2⟩, rfl,
    by rw [hov]; linarith, by rw [hov]; linarith⟩

/-- Claim C1: every Interaction produced by the process-interaction
operation satisfies blocked = true exactly when block_reason is non-null:
the governance block and the provider-failure block carry a reason, the
successful path carries none. -/
theorem interaction_blocked_iff_block_reason (policy : PolicyConfig)
    (mode : SessionMode) (role : Option String) (history : List String)
    (context : List (String × String)) (aiDependencyRisk : ℚ)
    (provider : String → ProviderResult) (prompt : String)
    (traceId : ℕ) (parent : Option ℕ) (now : ℕ) :
    (processInteraction policy mode role history context aiDependencyRisk
        provider prompt traceId parent now).interaction.blocked = true ↔
    (processInteraction policy mode role history context aiDependencyRisk
        provider prompt traceId parent now).interaction.block_reason ≠ none := by
  unfold processInteraction stepOutcome
  dsimp only
  split
  · simp
  · split <;> simp

/-- Concrete run of the blocked/block_reason invariant on a successful
tutoring interaction. -/
theorem interaction_blocked_iff_block_reason_witness :
    ((processInteraction policyFree SessionMode.TUTOR none [] [] 0
        providerOk "hola" 0 none 5).interaction.blocked = true ↔
      (processInteraction policyFree SessionMode.TUTOR none [] [] 0
        providerOk "hola" 0 none 5).interaction.block_reason ≠ none) :=
  interaction_blocked_iff_block_reason policyFree SessionMode.TUTOR none [] []
    0 providerOk "hola" 0 none 5

/-- Under a policy that blocks complete solutions, a prompt that
pattern-matches a complete-solution request makes the Governance Gate
return a block verdict (whatever the prior risk aggregate). -/
theorem gate_blocks_complete_solution (policy : PolicyConfig)
    (aiDependencyRisk : ℚ) (prompt : String)
    (hpol : policy.block_complete_solutions = true)
    (hpat : isCompleteSolutionRequest prompt = true) :
    ∃ r, governanceGate policy aiDependencyRisk prompt = Verdict.block r := by
  unfold governanceGate
  split
  · exact ⟨_, rfl⟩
  · rw [if_pos (by simp [hpol, hpat])]
    exact ⟨_, rfl⟩

/-- Claim C3: when the session policy has block_complete_solutions = true
and the prompt pattern-matches a complete-solution request, the pipeline
returns a blocked Interaction, makes no call to the external model
provider, and still records a trace node flagged blocked. -/
theorem complete_solution_request_blocked (policy : PolicyConfig)
    (mode : SessionMode) (role : Option String) (history : List String)
    (context : List (String × String)) (aiDependencyRisk : ℚ)
    (provider : String → ProviderResult) (prompt : String)
    (traceId : ℕ) (parent : Option ℕ) (now : ℕ)
    (hpol : policy.block_complete_solutions = true)
    (hpat : isCompleteSolutionRequest prompt = true) :
    (processInteraction policy mode role history context aiDependencyRisk
        provider prompt traceId parent now).interaction.blocked = true ∧
    (processInteraction policy mode role history context aiDependencyRisk
        provider prompt traceId parent now).providerCalls = 0 ∧
    (processInteraction policy mode role history context aiDependencyRisk
        provider prompt traceId parent now).trace.blocked = true := by
  obtain ⟨r, hr⟩ :=
    gate_blocks_complete_solution policy aiDependencyRisk prompt hpol hpat
  unfold processInteraction stepOutcome
  rw [hr]
  exact ⟨rfl, rfl, rfl⟩

/-- Concrete run of the complete-solution block: the scenario prompt under
the strict policy is blocked with no provider call and a blocked trace. -/
theorem complete_solution_request_blocked_witness :
    policyStrict.block_complete_solutions = true ∧
    isCompleteSolutionRequest "give me the complete solution" = true ∧
    ((processInteraction policyStrict SessionMode.TUTOR none [] [] 0
        providerOk "give me the complete solution" 0 none 1).interaction.blocked
        = true ∧
      (processInteraction policyStrict SessionMode.TUTOR none [] [] 0
        providerOk "give me the complete solution" 0 none 1).providerCalls = 0 ∧
      (processInteraction policyStrict SessionMode.TUTOR none [] [] 0
        providerOk "give me the complete solution" 0 none 1).trace.blocked
        = true) :=
  ⟨rfl, by decide,
   complete_solution_request_blocked policyStrict SessionMode.TUTOR none [] []
     0 providerOk "give me the complete solution" 0 none 1 rfl (by decide)⟩

/-- Claim C4: when the gate admits the prompt but the external generation
call errors or times out, the pipeline resolves to the safe default: a
blocked Interaction whose reason names the provider failure and whose
response is the fixed safe content (not a fallback generation), a persisted
trace node flagged blocked whose N1 metadata records the failure, and
exactly one provider call (no retry with relaxed constraints). -/
theorem provider_failure_safe_default (policy : PolicyConfig)
    (mode : SessionMode) (role : Option String) (history : List String)
    (context : List (String × String)) (aiDependencyRisk : ℚ)
    (provider : String → ProviderResult) (prompt : String)
    (traceId : ℕ) (parent : Option ℕ) (now : ℕ) (msg : String)
    (hgate : (governanceGate policy aiDependencyRisk prompt).isBlock = false)
    (hprov : provider prompt = ProviderResult.failure msg) :
    (processInteraction policy mode role history context aiDependencyRisk
        provider prompt traceId parent now).interaction.blocked = true ∧
    (processInteraction policy mode role history context aiDependencyRisk
        provider prompt traceId parent now).interaction.block_reason =
      some (String.append "Provider failure: " msg) ∧
    (processInteraction policy mode role history context aiDependencyRisk
        provider prompt traceId parent now).interaction.response =
      safeBlockedResponse ∧
    (processInteraction policy mode role history context aiDependencyRisk
        provider prompt traceId parent now).trace.blocked = true ∧
    (processInteraction policy mode role history context aiDependencyRisk
        provider prompt traceId parent now).trace.n1.provider_failure =
      some msg ∧
    (processInteraction policy mode role history context aiDependencyRisk
        provider prompt traceId parent now).providerCalls = 1 := by
  unfold processInteraction stepOutcome
  cases hg : governanceGate policy aiDependencyRisk prompt with
  | block r =>
      rw [hg] at hgate
      simp [Verdict.isBlock] at hgate
  | allow =>
      rw [hprov]
      exact ⟨rfl, rfl, rfl, rfl, rfl, rfl⟩
  | allowWithConstraint c =>
      rw [hprov]
      exact ⟨rfl, rfl, rfl, rfl, rfl, rfl⟩

/-- Concrete run of the provider-failure default: a benign prompt with a
timed-out provider yields the blocked safe interaction and failure trace. -/
theorem provider_failure_safe_default_witness :
    ((governanceGate policyFree 0 "hola").isBlock = false) ∧
    providerDown "hola" = ProviderResult.failure "timeout" ∧
    ((processInteraction policyFree SessionMode.TUTOR none [] [] 0
        providerDown "hola" 0 none 9).interaction.blocked = true ∧
      (processInteraction policyFree SessionMode.TUTOR none [] [] 0
        providerDown "hola" 0 none 9).interaction.block_reason =
        some (String.append "Provider failure: " "timeout") ∧
      (processInteraction policyFree SessionMode.TUTOR none [] [] 0
        providerDown "hola" 0 none 9).interaction.response =
        safeBlockedResponse ∧
      (processInteraction policyFree SessionMode.TUTOR none [] [] 0
        providerDown "hola" 0 none 9).trace.blocked = true ∧
      (processInteraction policyFree SessionMode.TUTOR none [] [] 0
        providerDown "hola" 0 none 9).trace.n1.provider_failure =
        some "timeout" ∧
      (processInteraction policyFree SessionMode.TUTOR none [] [] 0
        providerDown "hola" 0 none 9).providerCalls = 1) :=
  ⟨by decide, rfl,
   provider_failure_safe_default policyFree SessionMode.TUTOR none [] [] 0
     providerDown "hola" 0 none 9 "timeout" (by decide) rfl⟩

/-- The recorded trace node takes exactly the identifier passed in. -/
theorem processInteraction_trace_id (policy : PolicyConfig) (mode : SessionMode)
    (role : Option String) (history : List String)
    (context : List (String × String)) (aiDependencyRisk : ℚ)
    (provider : String → ProviderResult) (prompt : String)
    (traceId : ℕ) (parent : Option ℕ) (now : ℕ) :
    (processInteraction policy mode role history context aiDependencyRisk
      provider prompt traceId parent now).trace.id = traceId := rfl

/-- The recorded trace node points exactly at the parent passed in. -/
theorem processInteraction_trace_parent (policy : PolicyConfig)
    (mode : SessionMode) (role : Option String) (history : List String)
    (context : List (String × String)) (aiDependencyRisk : ℚ)
    (provider : String → ProviderResult) (prompt : String)
    (traceId : ℕ) (parent : Option ℕ) (now : ℕ) :
    (processInteraction policy mode role history context aiDependencyRisk
      provider prompt traceId parent now).trace.parent_trace_id = parent := rfl

/-- The recorded trace node carries exactly the clock time passed in. -/
theorem processInteraction_trace_timestamp (policy : PolicyConfig)
    (mode : SessionMode) (role : Option String) (history : List String)
    (context : List (String × String)) (aiDependencyRisk : ℚ)
    (provider : String → ProviderResult) (prompt : String)
    (traceId : ℕ) (parent : Option ℕ) (now : ℕ) :
    (processInteraction policy mode role history context aiDependencyRisk
      provider prompt traceId parent now).trace.timestamp = now := rfl

/-- The stored chain's timestamps are exactly the submitted interaction
times, newest first, on top of the prior chain. -/
theorem runSession_map_timestamp (policy : PolicyConfig) (mode : SessionMode)
    (role : Option String) (aiDependencyRisk : ℚ)
    (provider : String → ProviderResult) :
    ∀ (inputs : List (String × ℕ)) (chain : List TraceRec),
      (runSession policy mode role aiDependencyRisk provider inputs chain).map
          TraceRec.timestamp =
        (inputs.map Prod.snd).reverse ++ chain.map TraceRec.timestamp := by
  intro inputs
  induction inputs with
  | nil => intro chain; simp [runSession]
  | cons pt rest ih =>
      intro chain
      obtain ⟨p, t⟩ := pt
      rw [runSession, ih]
      simp [processInteraction_trace_timestamp]

/-- Each processed interaction appends exactly one node to the chain. -/
theorem runSession_length (policy : PolicyConfig) (mode : SessionMode)
    (role : Option String) (aiDependencyRisk : ℚ)
    (provider : String → ProviderResult) :
    ∀ (inputs : List (String × ℕ)) (chain : List TraceRec),
      (runSession policy mode role aiDependencyRisk provider inputs chain).length =
        inputs.length + chain.length := by
  intro inputs
  induction inputs with
  | nil => intro chain; simp [runSession]
  | cons pt rest ih =>
      intro chain
      obtain ⟨p, t⟩ := pt
      rw [runSession, ih]
      simp
      omega

/-- Claim C6: the CognitivePath summary reconstructed from the traces a
session stored after processing its interactions reports total_interactions
equal to the number of interactions, and a total duration equal to the last
interaction's trace timestamp minus the first's. -/
theorem cognitive_path_roundtrip (policy : PolicyConfig) (mode : SessionMode)
    (role : Option String) (aiDependencyRisk : ℚ)
    (provider : String → ProviderResult) (inputs : List (String × ℕ)) :
    (reconstructPathSummary
        (runSession policy mode role aiDependencyRisk provider inputs
          [])).total_interactions = inputs.length ∧
    (reconstructPathSummary
        (runSession policy mode role aiDependencyRisk provider inputs
          [])).total_duration =
      ((inputs.map Prod.snd).getLast?).getD 0 -
        ((inputs.map Prod.snd).head?).getD 0 := by
  have hm := runSession_map_timestamp policy mode role aiDependencyRisk provider
    inputs []
  simp only [List.map_nil, List.append_nil] at hm
  constructor
  · show (runSession policy mode role aiDependencyRisk provider inputs
        []).length = inputs.length
    rw [runSession_length]
    simp
  · show (((runSession policy mode role aiDependencyRisk provider inputs
        []).head?).map TraceRec.timestamp).getD 0 -
        (((runSession policy mode role aiDependencyRisk provider inputs
          []).getLast?).map TraceRec.timestamp).getD 0 = _
    rw [← List.head?_map, ← List.getLast?_map, hm,
      List.head?_reverse, List.getLast?_reverse]

/-- The stored identifiers of a chain (kept newest first) are exactly
length-1 down to 0. -/
def chainIds (chain : List TraceRec) : Prop :=
  chain.map TraceRec.id = (List.range chain.length).reverse

/-- Every node's parent reference points at the node recorded just before
it; the oldest node has none. -/
def linkedChain : List TraceRec → Prop
  | [] => True
  | a :: rest => a.parent_trace_id = (rest.head?).map TraceRec.id ∧ linkedChain rest

/-- Timestamps strictly decrease along the newest-first chain, i.e. strictly
increase in recording order. -/
def tsSorted (chain : List TraceRec) : Prop :=
  List.Chain' (fun a b => b.timestamp < a.timestamp) chain

/-- Running the recorder over interactions submitted at strictly increasing
times preserves the three chain invariants. -/
theorem runSession_inv (policy : PolicyConfig) (mode : SessionMode)
    (role : Option String) (aiDependencyRisk : ℚ)
    (provider : String → ProviderResult) :
    ∀ (inputs : List (String × ℕ)) (chain : List TraceRec),
      chainIds chain → linkedChain chain → tsSorted chain →
      (∀ pt ∈ inputs, ∀ a ∈ chain, a.timestamp < pt.2) →
      List.Pairwise (fun x y : String × ℕ => x.2 < y.2) inputs →
      chainIds (runSession policy mode role aiDependencyRisk provider inputs chain) ∧
      linkedChain (runSession policy mode role aiDependencyRisk provider inputs chain) ∧
      tsSorted (runSession policy mode role aiDependencyRisk provider inputs chain) := by
  intro inputs
  induction inputs with
  | nil =>
      intro chain h1 h2 h3 _ _
      rw [runSession]
      exact ⟨h1, h2, h3⟩
  | cons pt rest ih =>
      intro chain h1 h2 h3 hbig hpair
      obtain ⟨p, t⟩ := pt
      rw [runSession]
      apply ih
      · unfold chainIds at h1 ⊢
        simp only [List.map_cons, List.length_cons, List.range_succ,
          List.reverse_append, List.reverse_singleton, List.singleton_append,
          processInteraction_trace_id]
        rw [h1]
      · exact ⟨processInteraction_trace_parent policy mode role [] []
          aiDependencyRisk provider p chain.length ((chain.head?).map TraceRec.id) t,
          h2⟩
      · unfold tsSorted at h3 ⊢
        rw [List.chain'_cons']
        refine ⟨?_, h3⟩
        intro b hb
        have hbmem : b ∈ chain := List.mem_of_mem_head? hb
        have := hbig (p, t) (List.mem_cons_self _ _) b hbmem
        simpa [processInteraction_trace_timestamp] using this
      · intro pt2 hpt2 a ha
        rcases List.mem_cons.mp ha with hae | hain
        · subst hae
          have ht := (List.pairwise_cons.mp hpair).1 pt2 hpt2
          simpa [processInteraction_trace_timestamp] using ht
        · exact hbig pt2 (List.mem_cons_of_mem _ hpt2) a hain
      · exact hpair.of_cons

/-- In a well-formed chain every non-null parent reference names a strictly
smaller identifier than its child's. -/
theorem parent_lt_of_inv :
    ∀ chain : List TraceRec, chainIds chain → linkedChain chain →
      ∀ a ∈ chain, ∀ pid, a.parent_trace_id = some pid → pid < a.id := by
  intro chain
  induction chain with
  | nil => intro _ _ a ha; simp at ha
  | cons x rest ih =>
      intro hids hlink a ha pid hpid
      unfold chainIds at hids
      simp only [List.map_cons, List.length_cons, List.range_succ,
        List.reverse_append, List.reverse_singleton, List.singleton_append,
        List.cons.injEq] at hids
      obtain ⟨hx, hrest⟩ := hids
      obtain ⟨hlink1, hlink2⟩ := hlink
      rcases List.mem_cons.mp ha with hae | hain
      · subst hae
        rw [hlink1] at hpid
        cases rest with
        | nil => simp at hpid
        | cons y ys =>
            simp at hpid
            have hy : y.id = ys.length := by
              simp only [List.map_cons, List.length_cons, List.range_succ,
                List.reverse_append, List.reverse_singleton,
                List.singleton_append, List.cons.injEq] at hrest
              exact hrest.1
            rw [hx]
            simp only [List.length_cons]
            omega
      · exact ih hrest hlink2 a hain pid hpid

/-- In a well-formed chain the node with the smaller identifier carries the
strictly earlier timestamp. -/
theorem ts_lt_of_id_lt (chain : List TraceRec) (hids : chainIds chain)
    (hts : tsSorted chain) :
    ∀ a ∈ chain, ∀ b ∈ chain, b.id < a.id → b.timestamp < a.timestamp := by
  have Pid : List.Pairwise (fun a b : TraceRec => b.id < a.id) chain := by
    have hr : List.Pairwise (fun m n : ℕ => n < m) (chain.map TraceRec.id) := by
      rw [hids, List.pairwise_reverse]
      exact List.pairwise_lt_range _
    exact List.pairwise_map.mp hr
  have Pts : List.Pairwise (fun a b : TraceRec => b.timestamp < a.timestamp)
      chain := by
    have : Transitive (fun a b : TraceRec => b.timestamp < a.timestamp) :=
      fun a b c hab hbc => lt_trans hbc hab
    exact (@List.chain'_iff_pairwise _ _ ⟨this⟩ chain).mp hts
  have Psym : List.Pairwise (fun a b : TraceRec =>
      (b.id < a.id ∧ b.timestamp < a.timestamp) ∨
      (a.id < b.id ∧ a.timestamp < b.timestamp)) chain :=
    (Pid.and Pts).imp (fun h => Or.inl h)
  intro a ha b hb hlt
  have hne : a ≠ b := by
    intro he
    rw [he] at hlt
    exact lt_irrefl _ hlt
  have hsym : Symmetric (fun a b : TraceRec =>
      (b.id < a.id ∧ b.timestamp < a.timestamp) ∨
      (a.id < b.id ∧ a.timestamp < b.timestamp)) := by
    intro u v huv
    rcases huv with h | h
    · exact Or.inr h
    · exact Or.inl h
  rcases Psym.forall hsym ha hb hne with h | h
  · exact h.2
  · exact absurd hlt (lt_asymm h.1)

/-- Claim C5: over any session run whose interactions arrive at strictly
increasing times, the stored trace identifiers are pairwise distinct and
every non-null parent reference names a node with a strictly smaller
identifier and a strictly earlier timestamp — so following parent
references strictly descends and can never revisit a node, and a parent's
timestamp strictly precedes its child's. -/
theorem trace_chain_acyclic_time_monotonic (policy : PolicyConfig)
    (mode : SessionMode) (role : Option String) (aiDependencyRisk : ℚ)
    (provider : String → ProviderResult) (inputs : List (String × ℕ))
    (htimes : List.Pairwise (fun x y : String × ℕ => x.2 < y.2) inputs) :
    ((runSession policy mode role aiDependencyRisk provider inputs []).map
      TraceRec.id).Nodup ∧
    ∀ a ∈ runSession policy mode role aiDependencyRisk provider inputs [],
      ∀ pid, a.parent_trace_id = some pid →
        pid < a.id ∧
        ∀ b ∈ runSession policy mode role aiDependencyRisk provider inputs [],
          b.id = pid → b.timestamp < a.timestamp := by
  obtain ⟨hids, hlink, hts⟩ :=
    runSession_inv policy mode role aiDependencyRisk provider inputs []
      (by simp [chainIds]) trivial List.chain'_nil (by simp) htimes
  constructor
  · rw [hids]
    exact List.nodup_reverse.mpr (List.nodup_range _)
  · intro a ha pid hpid
    have h1 : pid < a.id := parent_lt_of_inv _ hids hlink a ha pid hpid
    refine ⟨h1, ?_⟩
    intro b hb hbid
    exact ts_lt_of_id_lt _ hids hts a ha b hb (hbid ▸ h1)

/-- Concrete run of the chain invariants on a two-interaction session. -/
theorem trace_chain_acyclic_time_monotonic_witness :
    ((runSession policyFree SessionMode.TUTOR none 0 providerOk
        [("hola", 1), ("gracias", 2)] []).map TraceRec.id).Nodup ∧
    ∀ a ∈ runSession policyFree SessionMode.TUTOR none 0 providerOk
        [("hola", 1), ("gracias", 2)] [],
      ∀ pid, a.parent_trace_id = some pid →
        pid < a.id ∧
        ∀ b ∈ runSession policyFree SessionMode.TUTOR none 0 providerOk
            [("hola", 1), ("gracias", 2)] [],
          b.id = pid → b.timestamp < a.timestamp :=
  trace_chain_acyclic_time_monotonic policyFree SessionMode.TUTOR none 0
    providerOk [("hola", 1), ("gracias", 2)] (by decide)

end Activia
